import Mathlib

/-!
Verification development for the Vendigo vending-machine dashboard.

The backend (`server.js`, two variants) is an Express app over a MySQL
store with tables `products`, `machines`, `inventory`, `sales`,
`sale_items`.  We shallowly embed the store as lists of records and each
endpoint handler (validation + the SQL statement it issues) as a pure
function on that state.  SQL `NULL`-producing aggregates (`SUM` over zero
rows) are modelled with `Option`, `COALESCE`/`Number(x) || 0` with
`Option.getD 0`.  Timestamps (`NOW()`) are passed in explicitly; the
store-generated `inv_id` of a fresh insert is passed in as `freshId`.
JavaScript truthiness of a numeric field is modelled as "present and
nonzero" (`NaN` is not representable with exact integers/rationals and
is noted where the code tests `isNaN`).
-/

/-- Row of the `products` table (`product_id` primary key). -/
structure Product where
  product_id : Int
  name : String
  price : Rat
  unit : String
deriving DecidableEq, Repr

/-- Row of the `machines` table (`machine_id` primary key). -/
structure Machine where
  machine_id : Int
  location : String
  description : String
deriving DecidableEq, Repr

/-- Row of the `inventory` table: `inv_id` primary key, UNIQUE KEY on
(`machine_id`, `product_id`) — the key the restock upsert conflicts on. -/
structure InvRecord where
  inv_id : Int
  machine_id : Int
  product_id : Int
  qty : Int
  last_restock : Nat
deriving DecidableEq, Repr

/-- Row of the `sales` table (read-only input to the aggregator). -/
structure Sale where
  total_amount : Rat
  sale_time : Nat
deriving DecidableEq, Repr

/-- Row of the `sale_items` table (read-only input to the aggregator). -/
structure SaleItem where
  product_id : Int
  qty : Int
deriving DecidableEq, Repr

/-- The whole backing store. -/
structure DB where
  products : List Product
  machines : List Machine
  inventory : List InvRecord
  sales : List Sale
  sale_items : List SaleItem
deriving DecidableEq, Repr

/-- JSON body of the inventory endpoints.  The server destructures the
keys `machine_id`, `product_id`, `qty`; the frontend service layer
(`api.ts`) instead serialises a key named `quantity`, which the server
never reads — both keys are carried so that mismatch is expressible. -/
structure InvBody where
  machine_id : Option Int := none
  product_id : Option Int := none
  qty : Option Int := none
  quantity : Option Int := none
deriving DecidableEq, Repr

/-- JavaScript truthiness of an optional numeric JSON field:
`!x` is true exactly when the field is absent/null or `0`. -/
def truthyNum : Option Int → Bool
  | none => false
  | some n => n != 0

/-- Does a machine row with this id exist (FK target of `inventory.machine_id`)? -/
def machineExists (db : DB) (m : Int) : Bool :=
  db.machines.any fun mm => mm.machine_id == m

/-- Does a product row with this id exist (FK target of `inventory.product_id`)? -/
def productExists (db : DB) (p : Int) : Bool :=
  db.products.any fun pp => pp.product_id == p

/-- The records of the (machine_id, product_id) pair — the rows the
UNIQUE KEY makes the upsert conflict on (at most one in reachable states). -/
def pairRecords (db : DB) (m p : Int) : List InvRecord :=
  db.inventory.filter fun r => r.machine_id == m && r.product_id == p

/-- The SQL effect of
`INSERT INTO inventory (machine_id, product_id, qty, last_restock)
 VALUES (?, ?, ?, NOW())
 ON DUPLICATE KEY UPDATE qty = COALESCE(qty,0) + VALUES(qty), last_restock = NOW()`:
if a row with the (machine_id, product_id) key exists it is updated
additively, otherwise a fresh row is inserted.  The stored `qty` is never
NULL in this model, so `COALESCE(qty,0)` is the identity (part_001 writes
the same statement without the COALESCE). -/
def upsertRestock (db : DB) (m p delta : Int) (now freshId : Nat) : DB :=
  if db.inventory.any (fun r => r.machine_id == m && r.product_id == p) then
    { db with inventory := db.inventory.map fun r =>
        if r.machine_id == m && r.product_id == p then
          { r with qty := r.qty + delta, last_restock := now }
        else r }
  else
    { db with inventory :=
        db.inventory ++ [⟨(freshId : Int), m, p, delta, now⟩] }

/-- `POST /api/inventory` of `server.js` (part_000).  Validation:
`if (!machine_id || !product_id || qty == null) return 400` — the ids must
be truthy but `qty` need only be present (non-null).  The store then
enforces the foreign keys on insert (`ER_NO_REFERENCED_ROW` surfaces via
the generic error handler); on success the upsert runs atomically. -/
def postInventory (db : DB) (b : InvBody) (now freshId : Nat) : Except String DB :=
  if !truthyNum b.machine_id || !truthyNum b.product_id || b.qty.isNone then
    .error "machine_id, product_id, qty required"
  else
    match b.machine_id, b.product_id, b.qty with
    | some m, some p, some q =>
        if machineExists db m && productExists db p then
          .ok (upsertRestock db m p q now freshId)
        else
          .error "Internal Server Error"
    | _, _, _ => .error "machine_id, product_id, qty required"

/-- `POST /api/inventory` of the part_001 backend.  Validation:
`if (!machine_id || !product_id || !qty) return 400` — all three fields
must be truthy, so `qty = 0` is rejected here (unlike part_000). -/
def postInventoryV1 (db : DB) (b : InvBody) (now freshId : Nat) : Except String DB :=
  if !truthyNum b.machine_id || !truthyNum b.product_id || !truthyNum b.qty then
    .error "machine_id, product_id, qty required"
  else
    match b.machine_id, b.product_id, b.qty with
    | some m, some p, some q =>
        if machineExists db m && productExists db p then
          .ok (upsertRestock db m p q now freshId)
        else
          .error "Internal Server Error"
    | _, _, _ => .error "machine_id, product_id, qty required"

/-- `PUT /api/inventory/:invId` (identical in both backend variants).
Validation: `if (qty == null || isNaN(qty)) return 400` (the `isNaN` arm
is unrepresentable over exact integers).  Effect:
`UPDATE inventory SET qty = ? WHERE inv_id = ?` — an absolute overwrite
of `qty` on the matching row(s); `last_restock` is not mentioned in the
statement and is left untouched.  No sign check is performed. -/
def putInventory (db : DB) (invId : Int) (b : InvBody) : Except String DB :=
  match b.qty with
  | none => .error "qty required"
  | some q =>
      .ok { db with inventory := db.inventory.map fun r =>
              if r.inv_id == invId then { r with qty := q } else r }

/-- `DELETE /api/inventory/:invId` (part_000).  Validation:
`if (!invId) return 400`; effect: `DELETE FROM inventory WHERE inv_id = ?`. -/
def deleteInventory (db : DB) (invId : Int) : Except String DB :=
  if invId == 0 then .error "invId required"
  else .ok { db with inventory := db.inventory.filter fun r => !(r.inv_id == invId) }

/-- The decrement branch of `handleRemove` in `Inventory.tsx`: the user
enters `removeQty`; `if (isNaN(removeQty) || removeQty < 0)` it is
rejected client-side; otherwise
`newQty = Math.max(0, (item.quantity ?? 0) - removeQty)` and a
`PUT /api/inventory/:id` with body `{ qty: newQty }` is issued. -/
def handleRemoveDecrement (db : DB) (itemId itemQty removeQty : Int) :
    Except String DB :=
  if removeQty < 0 then .error "Invalid remove quantity"
  else putInventory db itemId { qty := some (max 0 (itemQty - removeQty)) }

/-- The client-side guard of `saveEdit` in `Inventory.tsx`:
`if (isNaN(qty) || qty < 0)` the edit is blocked before any request. -/
def saveEditValidates (qty : Int) : Bool :=
  !(qty < 0)

/-- Body serialised by `updateInventory` in `api.ts`:
`body: JSON.stringify({ quantity })` — the key is `quantity`, not the
`qty` the server destructures. -/
def updateInventoryBody (quantity : Int) : InvBody :=
  { quantity := some quantity }

/-- Body serialised by `restockInventory` in `api.ts`:
`JSON.stringify({ machine_id: machineId, product_id: productId, quantity })`
— again `quantity`, not `qty`. -/
def restockInventoryBody (machineId productId quantity : Int) : InvBody :=
  { machine_id := some machineId, product_id := some productId,
    quantity := some quantity }

/-- At most one inventory row per (machine_id, product_id) pair — the
uniqueness invariant the UNIQUE KEY maintains. -/
def UniquePairs (db : DB) : Prop :=
  db.inventory.Pairwise fun r1 r2 =>
    ¬(r1.machine_id = r2.machine_id ∧ r1.product_id = r2.product_id)

instance (db : DB) : Decidable (UniquePairs db) := by
  unfold UniquePairs
  infer_instance

/-- SQL `SUM` over a column: `NULL` (here `none`) when there are no rows,
otherwise the sum. -/
def sqlSumInt (l : List Int) : Option Int :=
  if l.isEmpty then none else some l.sum

/-- SQL `SUM` over a decimal column, `NULL` on zero rows. -/
def sqlSumRat (l : List Rat) : Option Rat :=
  if l.isEmpty then none else some l.sum

/-- First product row with the given id (`JOIN products p ON
p.product_id = ...`; `product_id` is the primary key, so the first match
is the only one). -/
def findProduct (db : DB) (pid : Int) : Option Product :=
  db.products.find? fun p => p.product_id == pid

/-- The `i.qty * p.price` terms of the inner join `inventory ⋈ products`:
one term per inventory row whose product exists. -/
def stockValueTerms (db : DB) : List Rat :=
  db.inventory.filterMap fun r => (findProduct db r.product_id).map fun p => (r.qty : Rat) * p.price

/-- One entry of `top_selling_products`. -/
structure TopSeller where
  product_name : String
  total_sales : Int
deriving DecidableEq, Repr

/-- `GROUP BY si.product_id, p.name` with the inner join to `products`:
because the join is inner and `product_id` is the products' primary key,
the groups are exactly the products having at least one `sale_items` row;
each group sums the sold quantities. -/
def salesByProduct (db : DB) : List TopSeller :=
  (db.products.filter fun p =>
      db.sale_items.any fun si => si.product_id == p.product_id).map fun p =>
    ⟨p.name, (db.sale_items.filter fun si => si.product_id == p.product_id).map (·.qty) |>.sum⟩

/-- Descending order on summed sales (`ORDER BY total_sales DESC`). -/
def sellerGE (a b : TopSeller) : Prop := b.total_sales ≤ a.total_sales

instance : DecidableRel sellerGE := fun a b => by
  unfold sellerGE; infer_instance

instance : IsTotal TopSeller sellerGE :=
  ⟨fun a b => le_total b.total_sales a.total_sales⟩

instance : IsTrans TopSeller sellerGE :=
  ⟨fun _ _ _ h1 h2 => le_trans h2 h1⟩

/-- `top_selling_products` of `GET /api/metrics` (part_000): group, sort
descending by total sales, `LIMIT 10`, then coerce each sum with
`Number(r.total_sales || 0)` (identity here: the sums are numeric). -/
def topSellingProducts (db : DB) : List TopSeller :=
  ((salesByProduct db).insertionSort sellerGE).take 10

/-- Response shape of `GET /api/metrics`. -/
structure MetricsOut where
  total_products : Nat
  total_machines : Nat
  total_stock_quantity : Int
  total_stock_value : Rat
  total_revenue : Rat
  total_sales_count : Nat
  top_selling_products : List TopSeller
deriving DecidableEq, Repr

/-- `GET /api/metrics` (part_000): six scalar queries plus the top-seller
query.  `COUNT(*)` is the row count; `COALESCE(SUM(..),0)` is `getD 0`;
`Number(x) || 0` on an already-coalesced numeric sum is the identity
(it re-coerces the decimal/string-typed driver value, modelled as
already numeric). -/
def getMetrics (db : DB) : MetricsOut where
  total_products := db.products.length
  total_machines := db.machines.length
  total_stock_quantity := (sqlSumInt (db.inventory.map (·.qty))).getD 0
  total_stock_value := (sqlSumRat (stockValueTerms db)).getD 0
  total_revenue := (sqlSumRat (db.sales.map (·.total_amount))).getD 0
  total_sales_count := db.sales.length
  top_selling_products := topSellingProducts db

/-- Response shape of the compatibility route `GET /api/dashboard-metrics`. -/
structure CompatMetricsOut where
  totalProducts : Nat
  activeMachines : Nat
  itemsInStock : Int
  stockValue : Rat
deriving DecidableEq, Repr

/-- `GET /api/dashboard-metrics` (part_000): re-issues the same four
scalar queries as `GET /api/metrics` and renames the fields
(`totalProducts`, `activeMachines`, `itemsInStock`, `stockValue`);
`stockValue` goes through the same `Number(x) || 0` coercion. -/
def getDashboardMetrics (db : DB) : CompatMetricsOut where
  totalProducts := db.products.length
  activeMachines := db.machines.length
  itemsInStock := (sqlSumInt (db.inventory.map (·.qty))).getD 0
  stockValue := (sqlSumRat (stockValueTerms db)).getD 0

/-- One row of `GET /api/machine-distribution`. -/
structure DistRow where
  machine_id : Int
  machine_name : String
  total_qty : Int
  total_value : Rat
deriving DecidableEq, Repr

/-- `COALESCE(NULLIF(m.location, ''), NULLIF(m.description, ''),
CONCAT('Machine ', m.machine_id))`: location if non-empty, else
description if non-empty, else a synthesized label. -/
def machineDisplayName (m : Machine) : String :=
  if m.location ≠ "" then m.location
  else if m.description ≠ "" then m.description
  else "Machine " ++ toString m.machine_id

/-- The aggregation row of one machine in the
`machines LEFT JOIN inventory LEFT JOIN products` group:
`SUM(i.qty)` ranges over the machine's inventory rows (`NULL`, hence 0
after `COALESCE`, when there are none) and `SUM(i.qty * p.price)` skips
terms whose product is missing (SQL sums ignore `NULL` terms);
`Number(x || 0)` finally coerces both. -/
def distRowOf (db : DB) (m : Machine) : DistRow where
  machine_id := m.machine_id
  machine_name := machineDisplayName m
  total_qty :=
    (sqlSumInt ((db.inventory.filter fun r => r.machine_id == m.machine_id).map (·.qty))).getD 0
  total_value :=
    ((db.inventory.filter fun r => r.machine_id == m.machine_id).filterMap fun r =>
      (findProduct db r.product_id).map fun p => (r.qty : Rat) * p.price).sum

/-- Descending order on total quantity (`ORDER BY total_qty DESC`). -/
def distGE (a b : DistRow) : Prop := b.total_qty ≤ a.total_qty

instance : DecidableRel distGE := fun a b => by
  unfold distGE; infer_instance

instance : IsTotal DistRow distGE :=
  ⟨fun a b => le_total b.total_qty a.total_qty⟩

instance : IsTrans DistRow distGE :=
  ⟨fun _ _ _ h1 h2 => le_trans h2 h1⟩

/-- `GET /api/machine-distribution` (part_000): one group per machine —
the `GROUP BY m.machine_id` groups coincide with the machine rows since
`machine_id` is the primary key — sorted descending by `total_qty`
(tie order unspecified in SQL; a fixed total sort models it). -/
def machineDistribution (db : DB) : List DistRow :=
  (db.machines.map (distRowOf db)).insertionSort distGE

/-- Example store used by the concrete witnesses: one product (id 1,
price 2), two machines (1 with a location, 2 with neither location nor
description), one inventory row (inv 1: machine 1 holds 10 of product 1),
no sales. -/
def exDB : DB where
  products := [⟨1, "Cola", 2, "pcs"⟩]
  machines := [⟨1, "Lobby", ""⟩, ⟨2, "", ""⟩]
  inventory := [⟨1, 1, 1, 10, 3⟩]
  sales := []
  sale_items := []

/-- C5: for the same underlying state, the compatibility metrics view
(`GET /api/dashboard-metrics`) returns totalProducts, activeMachines,
itemsInStock and stockValue numerically equal, respectively, to
total_products, total_machines, total_stock_quantity and
total_stock_value of the primary metrics view (`GET /api/metrics`). -/
theorem dashboardMetrics_agrees_with_metrics (db : DB) :
    (getDashboardMetrics db).totalProducts = (getMetrics db).total_products ∧
    (getDashboardMetrics db).activeMachines = (getMetrics db).total_machines ∧
    (getDashboardMetrics db).itemsInStock = (getMetrics db).total_stock_quantity ∧
    (getDashboardMetrics db).stockValue = (getMetrics db).total_stock_value :=
  ⟨rfl, rfl, rfl, rfl⟩

/-- C10: the `api.ts` service functions `updateInventory` and
`restockInventory` serialise the key `quantity`, while the server
destructures `qty`; hence for every argument and store value both calls
hit the 400 validation branch and no `.ok` state is ever produced
through them. -/
theorem apiTs_inventory_calls_always_rejected (db : DB) (invId q m p : Int)
    (now fid : Nat) :
    putInventory db invId (updateInventoryBody q) = .error "qty required" ∧
    postInventory db (restockInventoryBody m p q) now fid =
      .error "machine_id, product_id, qty required" :=
  ⟨rfl, by simp [postInventory, restockInventoryBody]⟩

/-- C9: a setQuantity call (`PUT /api/inventory/:invId` with `{ qty }`)
succeeds and mutates only the `qty` field of the targeted row: every
row's `inv_id`, `machine_id`, `product_id` and `last_restock` are
unchanged, rows with a different `inv_id` are untouched, the targeted
row reappears with only `qty` overwritten, and the products, machines,
sales and sale_items tables are unchanged. -/
theorem setQuantity_frame (db : DB) (invId q : Int) :
    ∃ db', putInventory db invId { qty := some q } = .ok db' ∧
      db'.products = db.products ∧ db'.machines = db.machines ∧
      db'.sales = db.sales ∧ db'.sale_items = db.sale_items ∧
      db'.inventory.map (fun r => (r.inv_id, r.machine_id, r.product_id, r.last_restock)) =
        db.inventory.map (fun r => (r.inv_id, r.machine_id, r.product_id, r.last_restock)) ∧
      (∀ r ∈ db.inventory, r.inv_id ≠ invId → r ∈ db'.inventory) ∧
      (∀ r ∈ db.inventory, r.inv_id = invId →
        ({ r with qty := q } : InvRecord) ∈ db'.inventory) := by
  refine ⟨_, rfl, rfl, rfl, rfl, rfl, ?_, ?_, ?_⟩
  · show List.map _ (List.map _ _) = _
    rw [List.map_map]
    apply List.map_congr_left
    intro r _
    by_cases h : r.inv_id = invId <;> simp [h]
  · intro r hr hne
    have heq : (if r.inv_id == invId then { r with qty := q } else r) = r := by
      simp [hne]
    exact heq ▸ List.mem_map_of_mem _ hr
  · intro r hr he
    have heq : (if r.inv_id == invId then { r with qty := q } else r)
        = ({ r with qty := q } : InvRecord) := by simp [he]
    exact heq ▸ List.mem_map_of_mem _ hr

/-- Witness for C9 at the concrete store: the update of inv 1 to 42. -/
theorem setQuantity_frame_witness :
    ∃ db', putInventory exDB 1 { qty := some 42 } = .ok db' ∧
      db'.products = exDB.products ∧ db'.machines = exDB.machines ∧
      db'.sales = exDB.sales ∧ db'.sale_items = exDB.sale_items ∧
      db'.inventory.map (fun r => (r.inv_id, r.machine_id, r.product_id, r.last_restock)) =
        exDB.inventory.map (fun r => (r.inv_id, r.machine_id, r.product_id, r.last_restock)) ∧
      (∀ r ∈ exDB.inventory, r.inv_id ≠ 1 → r ∈ db'.inventory) ∧
      (∀ r ∈ exDB.inventory, r.inv_id = 1 →
        ({ r with qty := 42 } : InvRecord) ∈ db'.inventory) :=
  setQuantity_frame exDB 1 42

/-- C4: the decrement branch of `handleRemove` on a stored record with
quantity `item.qty` and a removal amount `r ≥ 0` issues a setQuantity
with `max 0 (item.qty - r)`: the call succeeds, the record reappears
(retained, not deleted — the row count is unchanged) with the clamped
quantity, which is never negative and is exactly 0 on over-removal. -/
theorem handleRemove_decrement_clamps (db : DB) (item : InvRecord) (r : Int)
    (hmem : item ∈ db.inventory) (hr : 0 ≤ r) :
    ∃ db', handleRemoveDecrement db item.inv_id item.qty r = .ok db' ∧
      ({ item with qty := max 0 (item.qty - r) } : InvRecord) ∈ db'.inventory ∧
      0 ≤ ({ item with qty := max 0 (item.qty - r) } : InvRecord).qty ∧
      (item.qty < r → ({ item with qty := max 0 (item.qty - r) } : InvRecord).qty = 0) ∧
      db'.inventory.length = db.inventory.length := by
  have hnot : ¬ r < 0 := not_lt.mpr hr
  refine ⟨_, by rw [handleRemoveDecrement, if_neg hnot]; rfl, ?_, ?_, ?_, ?_⟩
  · have heq : (if item.inv_id == item.inv_id then
        { item with qty := max 0 (item.qty - r) } else item)
        = ({ item with qty := max 0 (item.qty - r) } : InvRecord) := by simp
    exact heq ▸ List.mem_map_of_mem _ hmem
  · exact le_max_left 0 _
  · intro hlt
    show max 0 (item.qty - r) = 0
    exact max_eq_left (by omega)
  · exact List.length_map _ _

/-- Witness for C4: quantity 10, decrement 15 → the record survives with
quantity exactly 0. -/
theorem handleRemove_decrement_clamps_witness :
    (⟨1, 1, 1, 10, 3⟩ : InvRecord) ∈ exDB.inventory ∧ (0 : Int) ≤ 15 ∧
    (∃ db', handleRemoveDecrement exDB 1 10 15 = .ok db' ∧
      ({ inv_id := 1, machine_id := 1, product_id := 1,
                qty := max 0 (10 - 15), last_restock := 3 } : InvRecord) ∈ db'.inventory ∧
      0 ≤ ({ inv_id := 1, machine_id := 1, product_id := 1,
                qty := max 0 (10 - 15), last_restock := 3 } : InvRecord).qty ∧
      ((10 : Int) < 15 → ({ inv_id := 1, machine_id := 1, product_id := 1, qty := max 0 (10 - 15), last_restock := 3 } : InvRecord).qty = 0) ∧
      db'.inventory.length = exDB.inventory.length) :=
  ⟨by decide, by decide,
    handleRemove_decrement_clamps exDB ⟨1, 1, 1, 10, 3⟩ 15 (by decide) (by decide)⟩

/-- Store with a single inventory row (inv 1, quantity 5) used to
exercise the setQuantity endpoint on a negative input. -/
def negDB : DB where
  products := []
  machines := []
  inventory := [⟨1, 1, 1, 5, 0⟩]
  sales := []
  sale_items := []

/-- Counterexample to C3: `PUT /api/inventory/1` with `{ qty: -1 }` is
NOT rejected — the validation only tests `qty == null || isNaN(qty)`, so
the call succeeds and the stored quantity of the record becomes -1, a
negative stored quantity with the record mutated. -/
theorem setQuantity_negative_accepted :
    putInventory negDB 1 { qty := some (-1) } =
      .ok { negDB with inventory := [⟨1, 1, 1, -1, 0⟩] } ∧
    ((-1 : Int) < 0) :=
  ⟨rfl, by decide⟩

/-- C3 as amended: the setQuantity endpoint rejects a missing quantity
with a validation failure and no mutation (the `isNaN` arm covers the
non-numeric case), but performs no sign check — only the frontend
`saveEdit` guard blocks a negative quantity, client-side, before any
request is issued. -/
theorem setQuantity_missing_qty_rejected (db : DB) (invId : Int) (b : InvBody)
    (q : Int) (hb : b.qty = none) (hq : q < 0) :
    putInventory db invId b = .error "qty required" ∧
    saveEditValidates q = false := by
  constructor
  · rw [putInventory, hb]
  · simp [saveEditValidates, hq]

/-- Witness for the amended C3: a body with no `qty` key is rejected, and
the frontend guard blocks -1. -/
theorem setQuantity_missing_qty_rejected_witness :
    ({} : InvBody).qty = none ∧ (-1 : Int) < 0 ∧
    (putInventory negDB 1 {} = .error "qty required" ∧
      saveEditValidates (-1) = false) :=
  ⟨rfl, by decide, setQuantity_missing_qty_rejected negDB 1 {} (-1) rfl (by decide)⟩

/-- Store with machine 1 and product 1 present, no inventory — the
validation-only counterexample below restocks into it. -/
def zeroQtyDB : DB where
  products := [⟨1, "Cola", 2, "pcs"⟩]
  machines := [⟨1, "Lobby", ""⟩]
  inventory := []
  sales := []
  sale_items := []

/-- Counterexample to C6: the part_000 restock endpoint accepts a request
with `qty = 0` (its validation is `!machine_id || !product_id ||
qty == null`, so zero only needs to be present) and upserts a row with
quantity 0 — the request is not rejected at the validation layer. -/
theorem restock_zero_qty_accepted :
    postInventory zeroQtyDB { machine_id := some 1, product_id := some 1, qty := some 0 } 7 9 =
      .ok { zeroQtyDB with inventory := [⟨9, 1, 1, 0, 7⟩] } :=
  rfl

/-- C6 as amended: the part_001 restock endpoint rejects, with no
mutation, any request in which machine_id, product_id or qty is missing
or not truthy (so qty = 0 is rejected there); the part_000 endpoint
rejects a missing qty (and missing/falsy ids), but lets qty = 0 through
its validation. -/
theorem restock_validation_layers (db : DB) (b b0 b2 : InvBody) (now fid : Nat)
    (h1 : truthyNum b.machine_id = false ∨ truthyNum b.product_id = false ∨
      truthyNum b.qty = false)
    (h0 : b0.qty = none)
    (h2 : truthyNum b2.machine_id = false ∨ truthyNum b2.product_id = false) :
    postInventoryV1 db b now fid = .error "machine_id, product_id, qty required" ∧
    postInventory db b0 now fid = .error "machine_id, product_id, qty required" ∧
    postInventory db b2 now fid = .error "machine_id, product_id, qty required" := by
  refine ⟨?_, ?_, ?_⟩
  · rw [postInventoryV1, if_pos]
    rcases h1 with h | h | h <;> simp [h]
  · rw [postInventory, if_pos]
    simp [h0]
  · rw [postInventory, if_pos]
    rcases h2 with h | h <;> simp [h]

/-- Witness for the amended C6: `qty = 0` is rejected by the part_001
validation; a missing qty and a falsy machine_id are rejected by the
part_000 validation. -/
theorem restock_validation_layers_witness :
    (truthyNum ({ machine_id := some 1, product_id := some 1, qty := some 0 } : InvBody).machine_id = false ∨
      truthyNum ({ machine_id := some 1, product_id := some 1, qty := some 0 } : InvBody).product_id = false ∨
      truthyNum ({ machine_id := some 1, product_id := some 1, qty := some 0 } : InvBody).qty = false) ∧
    ({ machine_id := some 1, product_id := some 1 } : InvBody).qty = none ∧
    (truthyNum ({ machine_id := some 0, product_id := some 1, qty := some 4 } : InvBody).machine_id = false ∨
      truthyNum ({ machine_id := some 0, product_id := some 1, qty := some 4 } : InvBody).product_id = false) ∧
    (postInventoryV1 zeroQtyDB { machine_id := some 1, product_id := some 1, qty := some 0 } 7 9 =
        .error "machine_id, product_id, qty required" ∧
      postInventory zeroQtyDB { machine_id := some 1, product_id := some 1 } 7 9 =
        .error "machine_id, product_id, qty required" ∧
      postInventory zeroQtyDB { machine_id := some 0, product_id := some 1, qty := some 4 } 7 9 =
        .error "machine_id, product_id, qty required") :=
  ⟨by decide, rfl, by decide,
    restock_validation_layers zeroQtyDB _ _ _ 7 9 (by decide) rfl (by decide)⟩

/-- The restock body (`{ machine_id, product_id, qty }`) as serialised by
the frontend's `handleRestock` in `Inventory.tsx`, which sends the keys
the backend destructures. -/
def restockBody (m p q : Int) : InvBody :=
  { machine_id := some m, product_id := some p, qty := some q }

/-- On valid truthy ids referencing existing rows, the part_000 restock
endpoint reaches the upsert. -/
theorem postInventory_ok (db : DB) (m p d : Int) (now fid : Nat)
    (hm : m ≠ 0) (hp : p ≠ 0)
    (hmx : machineExists db m = true) (hpx : productExists db p = true) :
    postInventory db (restockBody m p d) now fid =
      .ok (upsertRestock db m p d now fid) := by
  rw [postInventory]
  simp [restockBody, truthyNum, hm, hp, hmx, hpx]

/-- Filtering on the (machine, product) key commutes with a row map that
does not change that key. -/
theorem pairRecords_map (l : List InvRecord) (m p : Int) (f : InvRecord → InvRecord)
    (hf : ∀ r, (f r).machine_id = r.machine_id ∧ (f r).product_id = r.product_id) :
    (l.map f).filter (fun r => r.machine_id == m && r.product_id == p) =
      (l.filter (fun r => r.machine_id == m && r.product_id == p)).map f := by
  rw [List.filter_map]
  have : ((fun r : InvRecord => r.machine_id == m && r.product_id == p) ∘ f) =
      (fun r : InvRecord => r.machine_id == m && r.product_id == p) := by
    funext r
    simp [Function.comp, (hf r).1, (hf r).2]
  rw [this]

/-- When the (machine, product) key is absent, the restock upsert takes
the INSERT branch: a fresh row is appended. -/
theorem upsertRestock_insert (db : DB) (m p d : Int) (now fid : Nat)
    (h : (db.inventory.any fun r => r.machine_id == m && r.product_id == p) = false) :
    upsertRestock db m p d now fid =
      { db with inventory := db.inventory ++ [⟨(fid : Int), m, p, d, now⟩] } := by
  rw [upsertRestock, h]
  rfl

/-- When the key is present, the upsert takes the DUPLICATE KEY branch:
the matching row is updated additively and `last_restock` refreshed. -/
theorem upsertRestock_update (db : DB) (m p d : Int) (now fid : Nat)
    (h : (db.inventory.any fun r => r.machine_id == m && r.product_id == p) = true) :
    upsertRestock db m p d now fid =
      { db with inventory := db.inventory.map fun r =>
          if r.machine_id == m && r.product_id == p then
            { r with qty := r.qty + d, last_restock := now }
          else r } := by
  rw [upsertRestock, h]
  rfl

/-- The upsert touches only the inventory table: machines unchanged. -/
theorem upsertRestock_machines (db : DB) (m p d : Int) (now fid : Nat) :
    (upsertRestock db m p d now fid).machines = db.machines := by
  rw [upsertRestock]
  split <;> rfl

/-- The upsert touches only the inventory table: products unchanged. -/
theorem upsertRestock_products (db : DB) (m p d : Int) (now fid : Nat) :
    (upsertRestock db m p d now fid).products = db.products := by
  rw [upsertRestock]
  split <;> rfl

/-- C1: restock on existing machine and product ids.  Fresh pair (store
db): the first call creates exactly one record for the pair, with
quantity d1 and last_restock the first call's time, and a second call
leaves exactly one record with quantity d1 + d2 and last_restock the
second call's time (with d1 = 5, d2 = 3: one record of quantity 8,
last_restock updated by both calls).  Existing record r0 (store dbe):
the call leaves exactly one record for the pair, with quantity
r0.qty + d and a refreshed last_restock. -/
theorem restock_upsert_additive (db dbe : DB) (r0 : InvRecord) (m p d1 d2 d : Int)
    (now1 now2 now fid1 fid2 fid : Nat)
    (hm : m ≠ 0) (hp : p ≠ 0)
    (hmx : machineExists db m = true) (hpx : productExists db p = true)
    (hmxe : machineExists dbe m = true) (hpxe : productExists dbe p = true)
    (hfresh : pairRecords db m p = [])
    (hex : pairRecords dbe m p = [r0]) :
    (∃ db1 db2,
      postInventory db (restockBody m p d1) now1 fid1 = .ok db1 ∧
      (pairRecords db1 m p).map (fun r => (r.qty, r.last_restock)) = [(d1, now1)] ∧
      postInventory db1 (restockBody m p d2) now2 fid2 = .ok db2 ∧
      (pairRecords db2 m p).map (fun r => (r.qty, r.last_restock)) = [(d1 + d2, now2)]) ∧
    (∃ dbe2,
      postInventory dbe (restockBody m p d) now fid = .ok dbe2 ∧
      (pairRecords dbe2 m p).map (fun r => (r.qty, r.last_restock)) = [(r0.qty + d, now)]) := by
  have hupdKey : ∀ r : InvRecord,
      ((if r.machine_id == m && r.product_id == p then
        { r with qty := r.qty + d, last_restock := now } else r) : InvRecord).machine_id
        = r.machine_id ∧
      ((if r.machine_id == m && r.product_id == p then
        { r with qty := r.qty + d, last_restock := now } else r) : InvRecord).product_id
        = r.product_id := by
    intro r
    by_cases h : (r.machine_id == m && r.product_id == p) = true <;> simp [h]
  constructor
  · have hfreshf : db.inventory.filter
        (fun r => r.machine_id == m && r.product_id == p) = [] := by
      rw [pairRecords] at hfresh
      exact hfresh
    have hany : (db.inventory.any fun r => r.machine_id == m && r.product_id == p) = false := by
      rw [List.any_eq_false]
      exact fun r hr => List.filter_eq_nil_iff.mp hfreshf r hr
    have hinv1 : (upsertRestock db m p d1 now1 fid1).inventory =
        db.inventory ++ [⟨(fid1 : Int), m, p, d1, now1⟩] := by
      rw [upsertRestock_insert db m p d1 now1 fid1 hany]
    refine ⟨upsertRestock db m p d1 now1 fid1,
      upsertRestock (upsertRestock db m p d1 now1 fid1) m p d2 now2 fid2,
      postInventory_ok db m p d1 now1 fid1 hm hp hmx hpx, ?_, ?_, ?_⟩
    · rw [pairRecords, hinv1, List.filter_append, hfreshf]
      simp
    · refine postInventory_ok _ m p d2 now2 fid2 hm hp ?_ ?_
      · rw [machineExists] at hmx ⊢
        rw [upsertRestock_machines]
        exact hmx
      · rw [productExists] at hpx ⊢
        rw [upsertRestock_products]
        exact hpx
    · have hmem : (⟨(fid1 : Int), m, p, d1, now1⟩ : InvRecord) ∈
          (upsertRestock db m p d1 now1 fid1).inventory := by
        rw [hinv1]
        exact List.mem_append_right _ (List.mem_singleton.mpr rfl)
      have hany2 : ((upsertRestock db m p d1 now1 fid1).inventory.any
          fun r => r.machine_id == m && r.product_id == p) = true :=
        List.any_eq_true.mpr ⟨_, hmem, by simp⟩
      rw [pairRecords, upsertRestock_update _ m p d2 now2 fid2 hany2]
      show (((upsertRestock db m p d1 now1 fid1).inventory.map _).filter _).map _ = _
      rw [pairRecords_map _ m p _ ?hf]
      case hf =>
        intro r
        by_cases h : (r.machine_id == m && r.product_id == p) = true <;> simp [h]
      rw [hinv1, List.filter_append, hfreshf]
      simp
  · have hmem0 : r0 ∈ dbe.inventory.filter
        (fun r => r.machine_id == m && r.product_id == p) := by
      rw [pairRecords] at hex
      rw [hex]
      exact List.mem_singleton.mpr rfl
    have hany : (dbe.inventory.any fun r => r.machine_id == m && r.product_id == p) = true :=
      List.any_eq_true.mpr ⟨r0, (List.mem_filter.mp hmem0).1,
        (List.mem_filter.mp hmem0).2⟩
    refine ⟨upsertRestock dbe m p d now fid,
      postInventory_ok dbe m p d now fid hm hp hmxe hpxe, ?_⟩
    rw [pairRecords, upsertRestock_update dbe m p d now fid hany]
    show ((dbe.inventory.map _).filter _).map _ = _
    rw [pairRecords_map _ m p _ hupdKey]
    rw [pairRecords] at hex
    rw [hex]
    have hkey := (List.mem_filter.mp hmem0).2
    simp only [List.map_cons, List.map_nil, hkey]
    simp

/-- Witness for C1: on the store with machine 1 and product 1 and no
inventory, restock 5 then restock 3 leaves exactly one (1,1) record of
quantity 8, last_restock updated by both calls; on the store whose (1,1)
record holds 10, restock 4 leaves one record of quantity 14. -/
theorem restock_upsert_additive_witness :
    (1 : Int) ≠ 0 ∧ machineExists zeroQtyDB 1 = true ∧
    productExists zeroQtyDB 1 = true ∧ pairRecords zeroQtyDB 1 1 = [] ∧
    machineExists exDB 1 = true ∧ productExists exDB 1 = true ∧
    pairRecords exDB 1 1 = [⟨1, 1, 1, 10, 3⟩] ∧
    ((∃ db1 db2,
      postInventory zeroQtyDB (restockBody 1 1 5) 10 1 = .ok db1 ∧
      (pairRecords db1 1 1).map (fun r => (r.qty, r.last_restock)) = [(5, 10)] ∧
      postInventory db1 (restockBody 1 1 3) 20 2 = .ok db2 ∧
      (pairRecords db2 1 1).map (fun r => (r.qty, r.last_restock)) = [(8, 20)]) ∧
    (∃ dbe2,
      postInventory exDB (restockBody 1 1 4) 30 7 = .ok dbe2 ∧
      (pairRecords dbe2 1 1).map (fun r => (r.qty, r.last_restock)) = [(14, 30)])) :=
  ⟨by decide, by decide, by decide, by decide, by decide, by decide, by decide,
    restock_upsert_additive zeroQtyDB exDB ⟨1, 1, 1, 10, 3⟩ 1 1 5 3 4 10 20 30 1 2 7
      (by decide) (by decide) (by decide) (by decide) (by decide) (by decide)
      (by decide) (by decide)⟩


/-- A row map that never changes the (machine_id, product_id) key
preserves the per-pair uniqueness invariant. -/
theorem uniquePairs_map (db : DB) (f : InvRecord → InvRecord)
    (hf : ∀ r, (f r).machine_id = r.machine_id ∧ (f r).product_id = r.product_id)
    (hu : UniquePairs db) :
    UniquePairs { db with inventory := db.inventory.map f } := by
  refine List.Pairwise.map f ?_ hu
  intro a b hab hcon
  apply hab
  constructor
  · rw [← (hf a).1, ← (hf b).1]
    exact hcon.1
  · rw [← (hf a).2, ← (hf b).2]
    exact hcon.2

/-- The restock upsert preserves per-pair uniqueness: the DUPLICATE KEY
branch never changes a key, and the INSERT branch only fires when the
key is absent. -/
theorem uniquePairs_upsert (db : DB) (m p d : Int) (now fid : Nat)
    (hu : UniquePairs db) : UniquePairs (upsertRestock db m p d now fid) := by
  cases hany : (db.inventory.any fun r => r.machine_id == m && r.product_id == p) with
  | true =>
      rw [upsertRestock_update db m p d now fid hany]
      refine uniquePairs_map db _ ?_ hu
      intro r
      by_cases hr : (r.machine_id == m && r.product_id == p) = true <;> simp [hr]
  | false =>
      rw [upsertRestock_insert db m p d now fid hany]
      show (db.inventory ++ ([⟨(fid : Int), m, p, d, now⟩] : List InvRecord)).Pairwise _
      rw [List.pairwise_append]
      refine ⟨hu, List.pairwise_singleton _ _, ?_⟩
      intro a ha b hb
      rw [List.mem_singleton] at hb
      subst hb
      have hna := List.any_eq_false.mp hany a ha
      simp only [Bool.and_eq_true, beq_iff_eq, not_and] at hna
      intro hcon
      exact hna hcon.1 hcon.2

/-- C2: in every state satisfying the at-most-one-record-per-(machine,
product)-pair invariant, each ledger operation — restock via either
backend variant, setQuantity, decrement-remove, and delete — preserves
the invariant in any state it successfully produces. -/
theorem ledger_preserves_unique_pairs (db : DB) (hu : UniquePairs db) :
    (∀ b now fid db', postInventory db b now fid = .ok db' → UniquePairs db') ∧
    (∀ b now fid db', postInventoryV1 db b now fid = .ok db' → UniquePairs db') ∧
    (∀ invId b db', putInventory db invId b = .ok db' → UniquePairs db') ∧
    (∀ itemId itemQty removeQty db',
      handleRemoveDecrement db itemId itemQty removeQty = .ok db' → UniquePairs db') ∧
    (∀ invId db', deleteInventory db invId = .ok db' → UniquePairs db') := by
  have hput : ∀ invId b db', putInventory db invId b = .ok db' → UniquePairs db' := by
    intro invId b db' h
    rw [putInventory] at h
    split at h
    · exact Except.noConfusion h
    · rw [← Except.ok.inj h]
      refine uniquePairs_map db _ ?_ hu
      intro r
      by_cases hr : (r.inv_id == invId) = true <;> simp [hr]
  refine ⟨?_, ?_, hput, ?_, ?_⟩
  · intro b now fid db' h
    rw [postInventory] at h
    split at h
    · exact Except.noConfusion h
    · split at h
      · split at h
        · rw [← Except.ok.inj h]
          exact uniquePairs_upsert _ _ _ _ _ _ hu
        · exact Except.noConfusion h
      · exact Except.noConfusion h
  · intro b now fid db' h
    rw [postInventoryV1] at h
    split at h
    · exact Except.noConfusion h
    · split at h
      · split at h
        · rw [← Except.ok.inj h]
          exact uniquePairs_upsert _ _ _ _ _ _ hu
        · exact Except.noConfusion h
      · exact Except.noConfusion h
  · intro itemId itemQty removeQty db' h
    rw [handleRemoveDecrement] at h
    split at h
    · exact Except.noConfusion h
    · exact hput _ _ _ h
  · intro invId db' h
    rw [deleteInventory] at h
    split at h
    · exact Except.noConfusion h
    · rw [← Except.ok.inj h]
      exact List.Pairwise.sublist (List.filter_sublist _) hu

/-- Witness for C2 at the concrete store, whose single-row inventory
satisfies the uniqueness invariant. -/
theorem ledger_preserves_unique_pairs_witness :
    UniquePairs exDB ∧
    ((∀ b now fid db', postInventory exDB b now fid = .ok db' → UniquePairs db') ∧
      (∀ b now fid db', postInventoryV1 exDB b now fid = .ok db' → UniquePairs db') ∧
      (∀ invId b db', putInventory exDB invId b = .ok db' → UniquePairs db') ∧
      (∀ itemId itemQty removeQty db',
        handleRemoveDecrement exDB itemId itemQty removeQty = .ok db' → UniquePairs db') ∧
      (∀ invId db', deleteInventory exDB invId = .ok db' → UniquePairs db')) :=
  ⟨by decide, ledger_preserves_unique_pairs exDB (by decide)⟩

/-- C7: the machine-distribution view has a row for every machine (left
join), whose machine_name resolves location-first, then description,
else the synthesized "Machine id" label; a machine with no inventory
rows gets total_qty = 0 and total_value = 0; and the output is sorted
descending by total_qty. -/
theorem machine_distribution_rows (db : DB) (m : Machine) (hm : m ∈ db.machines) :
    (∃ row ∈ machineDistribution db,
      row.machine_id = m.machine_id ∧
      row.machine_name = (if m.location ≠ "" then m.location
        else if m.description ≠ "" then m.description
        else "Machine " ++ toString m.machine_id) ∧
      ((db.inventory.filter fun r => r.machine_id == m.machine_id) = [] →
        row.total_qty = 0 ∧ row.total_value = 0)) ∧
    (machineDistribution db).Pairwise (fun a b => b.total_qty ≤ a.total_qty) := by
  constructor
  · refine ⟨distRowOf db m, ?_, rfl, rfl, ?_⟩
    · exact (List.perm_insertionSort distGE _).mem_iff.mpr (List.mem_map_of_mem _ hm)
    · intro hempty
      constructor
      · show (sqlSumInt ((db.inventory.filter fun r =>
            r.machine_id == m.machine_id).map (fun r => r.qty))).getD 0 = 0
        rw [hempty]
        rfl
      · show ((db.inventory.filter fun r => r.machine_id == m.machine_id).filterMap
            fun r => (findProduct db r.product_id).map fun p => (r.qty : Rat) * p.price).sum = 0
        rw [hempty]
        rfl
  · exact List.sorted_insertionSort distGE _

/-- Witness for C7 at the concrete store: machine 2 has empty location
and description and no inventory rows. -/
theorem machine_distribution_rows_witness :
    (⟨2, "", ""⟩ : Machine) ∈ exDB.machines ∧
    ((∃ row ∈ machineDistribution exDB,
      row.machine_id = (2 : Int) ∧
      row.machine_name = (if ("" : String) ≠ "" then ""
        else if ("" : String) ≠ "" then ""
        else "Machine " ++ toString (2 : Int)) ∧
      ((exDB.inventory.filter fun r => r.machine_id == (2 : Int)) = [] →
        row.total_qty = 0 ∧ row.total_value = 0)) ∧
    (machineDistribution exDB).Pairwise (fun a b => b.total_qty ≤ a.total_qty)) :=
  ⟨by decide, machine_distribution_rows exDB ⟨2, "", ""⟩ (by decide)⟩

/-- C8: every numeric aggregator output over an empty underlying table is
the number 0 — the raw SQL sum is NULL (`none`) there and the endpoint
coalesces it — and with no sale items the top-seller list is empty; with
no inventory every machine-distribution row reports 0 quantity and
0 value. -/
theorem aggregates_zero_rows (db : DB)
    (hs : db.sales = []) (hsi : db.sale_items = []) (hi : db.inventory = []) :
    (getMetrics db).total_stock_quantity = 0 ∧
    (getMetrics db).total_stock_value = 0 ∧
    (getMetrics db).total_revenue = 0 ∧
    (getMetrics db).total_sales_count = 0 ∧
    (getMetrics db).top_selling_products = [] ∧
    sqlSumRat (db.sales.map fun s => s.total_amount) = none ∧
    ∀ row ∈ machineDistribution db, row.total_qty = 0 ∧ row.total_value = 0 := by
  refine ⟨?_, ?_, ?_, ?_, ?_, ?_, ?_⟩
  · show (sqlSumInt (db.inventory.map fun r => r.qty)).getD 0 = 0
    rw [hi]
    rfl
  · show (sqlSumRat (stockValueTerms db)).getD 0 = 0
    rw [stockValueTerms, hi]
    rfl
  · show (sqlSumRat (db.sales.map fun s => s.total_amount)).getD 0 = 0
    rw [hs]
    rfl
  · show db.sales.length = 0
    rw [hs]
    rfl
  · show topSellingProducts db = []
    have hgroups : salesByProduct db = [] := by
      rw [salesByProduct, hsi]
      simp
    rw [topSellingProducts, hgroups]
    rfl
  · rw [hs]
    rfl
  · intro row hrow
    obtain ⟨mm, hmm, rfl⟩ :=
      List.mem_map.mp ((List.perm_insertionSort distGE _).mem_iff.mp hrow)
    constructor
    · show (sqlSumInt ((db.inventory.filter fun r =>
          r.machine_id == mm.machine_id).map (fun r => r.qty))).getD 0 = 0
      rw [hi]
      rfl
    · show ((db.inventory.filter fun r => r.machine_id == mm.machine_id).filterMap
          fun r => (findProduct db r.product_id).map fun p => (r.qty : Rat) * p.price).sum = 0
      rw [hi]
      rfl

/-- Witness for C8 at the store with products and machines but no sales,
sale items or inventory. -/
theorem aggregates_zero_rows_witness :
    zeroQtyDB.sales = [] ∧ zeroQtyDB.sale_items = [] ∧ zeroQtyDB.inventory = [] ∧
    ((getMetrics zeroQtyDB).total_stock_quantity = 0 ∧
      (getMetrics zeroQtyDB).total_stock_value = 0 ∧
      (getMetrics zeroQtyDB).total_revenue = 0 ∧
      (getMetrics zeroQtyDB).total_sales_count = 0 ∧
      (getMetrics zeroQtyDB).top_selling_products = [] ∧
      sqlSumRat (zeroQtyDB.sales.map fun s => s.total_amount) = none ∧
      ∀ row ∈ machineDistribution zeroQtyDB, row.total_qty = 0 ∧ row.total_value = 0) :=
  ⟨rfl, rfl, rfl, aggregates_zero_rows zeroQtyDB rfl rfl rfl⟩
